import Mathlib

/-!
Shallow embedding of the charging decision and protection engine of
`src/program.py` (class `SolarHome`).

Modelling conventions:
* Timestamps (`datetime`) are integers: seconds since an arbitrary epoch.
  A `timedelta` is the integer difference; Python's `timedelta.seconds`
  component equals the euclidean remainder mod 86400 (Python normalises
  `0 ≤ seconds < 86400` with floor division for days, which matches `Int.emod`).
* External collaborators (Emporia charger API, Powerwall, SOC sources) are
  passed in as explicit parameters: `extGet` is the charger object an external
  `get_chargers()[0]` read would return, a power sample is the triple
  `solar/home/battery` that `powerwall.power()` would return, and an SOC fetch
  is an `Except Unit ℚ` (error = the vendor call raised).
* The actuator echo: `emporia.update_charger(evse)` returns the charger in the
  commanded state, which the code immediately stores via
  `refresh_charger_status(...)`; we model the returned object as exactly the
  commanded `evse` record.
* Python floats (`excessive_ratio = 0.98`, SOC percentages) are modelled as
  rationals. For the integer-valued inputs considered here the double-precision
  rounding error of `excessive * 0.98 / 240` is far below the distance to the
  nearest integer boundary (the exact value has denominator dividing 12000 and
  is never an integer in the clamp range, since `gcd 49 12000 = 1`), so
  `int(...)` truncation agrees with the rational floor.
-/

namespace SolarHome

/-- The Emporia charger object (`self.evse`): the fields read or written by
`program.py` (`icon`, `status`, `charger_on`, `charging_rate`,
`max_charging_rate`). -/
structure Evse where
  icon : String
  status : String
  charger_on : Bool
  charging_rate : Int
  max_charging_rate : Int
  deriving DecidableEq

/-- `SolarHome.is_car_connected`: `self.evse.icon == "CarConnected"`. -/
def is_car_connected (e : Evse) : Bool := e.icon == "CarConnected"

/-- The standby correction applied on the TTL read path of
`refresh_charger_status` (lines 214-218): if connected, status `Standby` and
`charger_on`, force `charging_rate := 0` and `charger_on := false`. -/
def standby_fix (e : Evse) : Evse :=
  if is_car_connected e && (e.status == "Standby") && e.charger_on then
    { e with charging_rate := 0, charger_on := false }
  else e

/-- The mutable state of `SolarHome` used by the decision engine. -/
structure HomeState where
  evse : Evse
  evse_refresh_time : Int
  last_charging_state_change : Int
  vehicle_soc : ℚ
  vehicle_soc_update_time : Int
  max_soc_on_grid : ℚ
  soc_refresh_interval : Int
  sunrise : Int
  nem_peak_hour : Int
  sunset : Int

/-- `self.api_refresh_interval = timedelta(seconds=60)`. -/
def api_refresh_interval : Int := 60

/-- `self.min_excessive_solar = int(6 * 240)`. -/
def min_excessive_solar : Int := 1440

/-- `self.min_charging_state_change_interval.seconds` for
`timedelta(minutes=5)`. -/
def min_interval_seconds : Int := 300

/-- `self.excessive_ratio = 0.98`. -/
def excessive_ratio : ℚ := 49 / 50

/-- `SolarHome.charger_protection_wait` (lines 179-181):
`max(0, self.min_charging_state_change_interval.seconds - interval.seconds)`
where `interval = datetime.now() - self.last_charging_state_change`.
Python's `timedelta.seconds` is the seconds component, i.e. the remainder of
the total seconds modulo 86400. -/
def charger_protection_wait (s : HomeState) (now : Int) : Int :=
  max 0 (min_interval_seconds - (now - s.last_charging_state_change) % 86400)

/-- `SolarHome.refresh_charger_status` (lines 206-218).
`arg` is the optional `evse` argument (`some e` = a status object passed in,
typically the return of `update_charger`; `none` = TTL-driven read).
`extGet` is what the external `self.emporia.get_chargers()[0]` would return.
Note the standby correction runs only on the `none` (TTL read) path. -/
def refresh_charger_status (s : HomeState) (now : Int) (arg : Option Evse)
    (extGet : Evse) : HomeState :=
  match arg with
  | some e => { s with evse := e, evse_refresh_time := now }
  | none =>
    if api_refresh_interval < now - s.evse_refresh_time then
      { s with evse := standby_fix extGet, evse_refresh_time := now }
    else s

/-- Fallible variant of the TTL read path of `refresh_charger_status`, used to
state the error-propagation behaviour: `self.emporia.get_chargers()` is not
wrapped in `try`, so an exception propagates to the caller before `self.evse`
or `self.evse_refresh_time` are assigned (an `Except.error` result carries no
new state: the caller's state is unchanged). -/
def refresh_charger_status_try (s : HomeState) (now : Int)
    (fetch : Except Unit Evse) : Except Unit HomeState :=
  if api_refresh_interval < now - s.evse_refresh_time then
    match fetch with
    | Except.ok e =>
        Except.ok { s with evse := standby_fix e, evse_refresh_time := now }
    | Except.error u => Except.error u
  else Except.ok s

/-- A command sent to the charger actuator
(`self.emporia.update_charger(...)`): the on flag and charging rate it
commands. -/
inductive Cmd where
  | update (turnOn : Bool) (rate : Int)
  deriving DecidableEq

/-- Result of a charger-mutating call: the new state, the Python return value,
and the actuator commands issued (in order). -/
structure StepResult where
  state : HomeState
  ret : Bool
  cmds : List Cmd

/-- `SolarHome.set_charger` (lines 155-177). The protection guard
(`wait > 0`) is consulted only when the charger is off; a rate change while
the charger is on proceeds regardless. `last_charging_state_change` is updated
only on an accepted off→on transition. The final
`refresh_charger_status(self.emporia.update_charger(self.evse))` stores the
actuator echo of the commanded state. -/
def set_charger (s : HomeState) (now : Int) (rate0 : Int) (extGet : Evse) :
    StepResult :=
  let rate := max (min rate0 40) 6
  let wait := charger_protection_wait s now
  let s1 := refresh_charger_status s now none extGet
  if s1.evse.charger_on = false ∧ 0 < wait then
    ⟨s1, false, []⟩
  else if s1.evse.charger_on = true ∧ s1.evse.charging_rate = rate then
    ⟨s1, false, []⟩
  else
    let s2 := if s1.evse.charger_on then s1
              else { s1 with last_charging_state_change := now }
    let e2 := { s2.evse with charger_on := true, charging_rate := rate,
                             max_charging_rate := 40 }
    let s3 := refresh_charger_status { s2 with evse := e2 } now (some e2) extGet
    ⟨s3, s3.evse.charger_on, [Cmd.update true rate]⟩

/-- `SolarHome.stop_charger` (lines 183-201). With a pending protection wait
it first commands the charger to the minimum 6 A rate (whether or not the
charger is on) and sleeps out the wait; the off command (rate reset to 40,
`charger_on := False`) is then issued at time `now + wait` if the charger is
on or `reset` is set, and `last_charging_state_change` is stamped there. -/
def stop_charger (s : HomeState) (now : Int) (reset : Bool) (extGet : Evse) :
    StepResult :=
  let s1 := refresh_charger_status s now none extGet
  let wait := charger_protection_wait s1 now
  let s2 := if 0 < wait then
              { s1 with evse := { s1.evse with charging_rate := 6 },
                        evse_refresh_time := now }
            else s1
  let c1 : List Cmd := if 0 < wait then [Cmd.update s1.evse.charger_on 6] else []
  let t1 := if 0 < wait then now + wait else now
  if s2.evse.charger_on || reset then
    let e2 := { s2.evse with charging_rate := 40, charger_on := false }
    ⟨{ s2 with evse := e2, evse_refresh_time := t1,
               last_charging_state_change := t1 },
     true, c1 ++ [Cmd.update false 40]⟩
  else
    ⟨s2, !s2.evse.charger_on, c1⟩

/-- `SolarHome.available_solar` (lines 98-117), reachable-Powerwall case:
`solar - home - abs(battery)` from the power sample (the unreachable case is
the instance `solar = home = battery = 0`). -/
def available_solar (solar home battery : Int) : Int :=
  solar - home - |battery|

/-- The `excessive` value of `solar_charge` (line 128):
`self.available_solar() + self.evse.charger_on * self.evse.charging_rate * 240`
(Python bool coerces to 0/1). -/
def solar_excess (e : Evse) (solar home battery : Int) : Int :=
  available_solar solar home battery
    + (if e.charger_on then 1 else 0) * e.charging_rate * 240

/-- The charge rate of `solar_charge` (line 130):
`int(max(min(excessive * self.excessive_ratio / 240, 40), 6))`.
The clamped value is ≥ 6 > 0, so `int` truncation equals the floor. -/
def solar_rate (excessive : Int) : Int :=
  ⌊max (min ((excessive : ℚ) * excessive_ratio / 240) 40) 6⌋

/-- Result of a decision tick (`solar_charge` / `grid_charge`): final state,
Python return value, actuator commands, the rate argument passed to
`set_charger` (`none` when `set_charger` was not invoked), and whether
`stop_charger` was invoked. -/
structure TickResult where
  state : HomeState
  ret : Bool
  cmds : List Cmd
  requested : Option Int
  stopInvoked : Bool

/-- `SolarHome.solar_charge` (lines 119-136): refresh charger status; return
the cached on flag if the car is not connected; otherwise compute the excess
and either `set_charger(rate)` (when `excessive > min_excessive_solar`) or
`stop_charger()`. Returns the cached `charger_on` flag after the branch. -/
def solar_charge (s : HomeState) (now : Int) (extGet : Evse)
    (solar home battery : Int) : TickResult :=
  let s1 := refresh_charger_status s now none extGet
  if is_car_connected s1.evse = false then
    ⟨s1, s1.evse.charger_on, [], none, false⟩
  else
    let excessive := solar_excess s1.evse solar home battery
    if min_excessive_solar < excessive then
      let r := set_charger s1 now (solar_rate excessive) extGet
      ⟨r.state, r.state.evse.charger_on, r.cmds, some (solar_rate excessive),
       false⟩
    else
      let r := stop_charger s1 now false extGet
      ⟨r.state, r.state.evse.charger_on, r.cmds, none, true⟩

/-- `SolarHome.refresh_ev_soc` (lines 220-237). When the cache is older than
the refresh interval, the vendor fetch runs inside `try`: on success the cache
and timestamp are replaced; on failure the exception is caught and logged and
the stale cache is kept. The cached value is always returned. -/
def refresh_ev_soc (s : HomeState) (now : Int) (fetch : Except Unit ℚ) :
    HomeState × ℚ :=
  if s.soc_refresh_interval < now - s.vehicle_soc_update_time then
    match fetch with
    | Except.ok v =>
        ({ s with vehicle_soc := v, vehicle_soc_update_time := now }, v)
    | Except.error _ => (s, s.vehicle_soc)
  else (s, s.vehicle_soc)

/-- `SolarHome.grid_charge` (lines 138-153): refresh charger status; if the
car is connected and `refresh_ev_soc() < max_soc_on_grid` then
`set_charger(40)`, otherwise (connected, SOC at or above the ceiling)
`stop_charger()`. Returns the cached `charger_on` flag. -/
def grid_charge (s : HomeState) (now : Int) (extGet : Evse)
    (fetch : Except Unit ℚ) : TickResult :=
  let s1 := refresh_charger_status s now none extGet
  if is_car_connected s1.evse = false then
    ⟨s1, s1.evse.charger_on, [], none, false⟩
  else
    let p := refresh_ev_soc s1 now fetch
    if p.2 < p.1.max_soc_on_grid then
      let r := set_charger p.1 now 40 extGet
      ⟨r.state, r.state.evse.charger_on, r.cmds, some 40, false⟩
    else
      let r := stop_charger p.1 now false extGet
      ⟨r.state, r.state.evse.charger_on, r.cmds, none, true⟩

/-- Result of one off-peak tick (lines 255-258). `solarRet` is the value
returned by `solar_charge`; `gridInvoked` records whether the grid fallback
(`self.grid_charge()`) ran on this tick. -/
structure OffpeakResult where
  state : HomeState
  ret : Bool
  solarRet : Bool
  gridInvoked : Bool
  solarCmds : List Cmd
  gridCmds : List Cmd
  gridRequested : Option Int

/-- The off-peak tick body (line 258):
`self.grid_charge() if not self.solar_charge() and self.powerwall.battery >= 0
else False`. `battery` is the battery flow of this tick's power sample (the
value `available_solar` stored on `self.powerwall`). -/
def offpeak_tick (s : HomeState) (now : Int) (extGet : Evse)
    (solar home battery : Int) (fetch : Except Unit ℚ) : OffpeakResult :=
  let r := solar_charge s now extGet solar home battery
  if r.ret = false ∧ 0 ≤ battery then
    let g := grid_charge r.state now extGet fetch
    ⟨g.state, g.ret, r.ret, true, r.cmds, g.cmds, g.requested⟩
  else
    ⟨r.state, false, r.ret, false, r.cmds, [], none⟩

/-- The inputs of one loop iteration of `SolarHome.run`: the wall-clock time
at the tick and the external-world responses for that tick. -/
structure TickIn where
  t : Int
  extGet : Evse
  solar : Int
  home : Int
  battery : Int
  socFetch : Except Unit ℚ

/-- One iteration of the loops of `SolarHome.run` (lines 252-261), with the
phase re-derived from the tick's wall-clock time against the boundaries
computed at startup: grid before sunrise, the hybrid off-peak tick before the
peak hour, solar before sunset, and nothing at or after sunset (the loop has
exited). -/
def dispatch_tick (s : HomeState) (i : TickIn) : HomeState :=
  if i.t < s.sunrise then (grid_charge s i.t i.extGet i.socFetch).state
  else if i.t < s.nem_peak_hour then
    (offpeak_tick s i.t i.extGet i.solar i.home i.battery i.socFetch).state
  else if i.t < s.sunset then
    (solar_charge s i.t i.extGet i.solar i.home i.battery).state
  else s

/-- The body of `SolarHome.run`'s `try` block: the sequence of loop
iterations over the given tick inputs. -/
def run_loop (s : HomeState) (ticks : List TickIn) : HomeState :=
  ticks.foldl dispatch_tick s

/-- `SolarHome.run` (lines 248-266). `interrupt = none` models the normal
path (all loops complete, sunset reached); `interrupt = some n` models an
exception raised after `n` completed ticks, caught by the outer
`except Exception` handler. In both cases the `finally` clause runs
`self.stop_charger(True)` as the last action, at time `now`. -/
def run (s : HomeState) (ticks : List TickIn) (interrupt : Option Nat)
    (now : Int) (extGet : Evse) : StepResult :=
  let sExit := match interrupt with
    | none => run_loop s ticks
    | some n => run_loop s (ticks.take n)
  stop_charger sExit now true extGet

/-- A run of consecutive `grid_charge` ticks on which every vehicle-SOC fetch
fails (no SOC read has ever succeeded): each tick is given its wall-clock time
and external charger read, and the fetch is `Except.error ()`. Returns the
final state and whether any tick invoked `set_charger` (requested an ON
command). -/
def grid_run (s : HomeState) (ticks : List (Int × Evse)) : HomeState × Bool :=
  match ticks with
  | [] => (s, false)
  | (t, e) :: rest =>
    let r := grid_charge s t e (Except.error ())
    let p := grid_run r.state rest
    (p.1, r.requested.isSome || p.2)

/-- The fields of `SolarHome.__init__` (lines 17-51) relevant to the engine,
with `now` the startup instant: `vehicle_soc` starts at `max_soc_on_grid`,
the cache timestamps start one day in the past, and
`last_charging_state_change` starts one protection interval in the past. -/
def initial_state (e : Evse) (now : Int) (ceiling : ℚ)
    (socTTL sunrise peak sunset : Int) : HomeState :=
  { evse := e, evse_refresh_time := now - 86400,
    last_charging_state_change := now - min_interval_seconds,
    vehicle_soc := ceiling, vehicle_soc_update_time := now - 86400,
    max_soc_on_grid := ceiling, soc_refresh_interval := socTTL,
    sunrise := sunrise, nem_peak_hour := peak, sunset := sunset }

/-! Concrete states used by scenario theorems and counterexamples. -/

/-- A connected, currently-off charger at the 40 A resting rate. -/
def evOff : Evse :=
  { icon := "CarConnected", status := "Connected", charger_on := false,
    charging_rate := 40, max_charging_rate := 40 }

/-- A connected charger currently on at 10 A. -/
def evOn10 : Evse :=
  { icon := "CarConnected", status := "Connected", charger_on := true,
    charging_rate := 10, max_charging_rate := 40 }

/-- A connected charger reporting `Standby` while its cached on flag is
still true. -/
def evStandby : Evse :=
  { icon := "CarConnected", status := "Standby", charger_on := true,
    charging_rate := 10, max_charging_rate := 40 }

/-- A state whose protection interval has fully elapsed
(`last_charging_state_change = 700`, observed at `now = 1000`) with a fresh
charger cache and a fresh SOC cache at 50 %. -/
def stClear : HomeState :=
  { evse := evOff, evse_refresh_time := 1000,
    last_charging_state_change := 700, vehicle_soc := 50,
    vehicle_soc_update_time := 1000, max_soc_on_grid := 60,
    soc_refresh_interval := 300, sunrise := 0, nem_peak_hour := 100000,
    sunset := 200000 }

/-- A state still inside the protection interval (last change at `940`,
observed at `now = 1000`) with the charger on at 10 A. -/
def stHeldOn : HomeState :=
  { evse := evOn10, evse_refresh_time := 1000,
    last_charging_state_change := 940, vehicle_soc := 50,
    vehicle_soc_update_time := 1000, max_soc_on_grid := 60,
    soc_refresh_interval := 300, sunrise := 0, nem_peak_hour := 100000,
    sunset := 200000 }

/-- A state still inside the protection interval (last change at `940`,
observed at `now = 1000`) with the charger off and the cached SOC at 70 %
against a 60 % ceiling. -/
def stHeldOff : HomeState :=
  { evse := evOff, evse_refresh_time := 1000,
    last_charging_state_change := 940, vehicle_soc := 70,
    vehicle_soc_update_time := 1000, max_soc_on_grid := 60,
    soc_refresh_interval := 300, sunrise := 0, nem_peak_hour := 100000,
    sunset := 200000 }

/-! Helper lemmas about the embedded operations, shared by the claim
theorems. -/

theorem refresh_none_eq (s : HomeState) (now : Int) (e : Evse) :
    refresh_charger_status s now none e =
      (if api_refresh_interval < now - s.evse_refresh_time then
        { s with evse := standby_fix e, evse_refresh_time := now } else s) := rfl

theorem refresh_some_eq (s : HomeState) (now : Int) (e' e : Evse) :
    refresh_charger_status s now (some e') e =
      { s with evse := e', evse_refresh_time := now } := rfl

theorem refresh_fields (s : HomeState) (now : Int) (e : Evse) :
    (refresh_charger_status s now none e).last_charging_state_change =
      s.last_charging_state_change ∧
    (refresh_charger_status s now none e).vehicle_soc = s.vehicle_soc ∧
    (refresh_charger_status s now none e).vehicle_soc_update_time =
      s.vehicle_soc_update_time ∧
    (refresh_charger_status s now none e).max_soc_on_grid = s.max_soc_on_grid ∧
    (refresh_charger_status s now none e).soc_refresh_interval =
      s.soc_refresh_interval := by
  rw [refresh_none_eq]
  split <;> simp

theorem refresh_ev_soc_fields (s : HomeState) (now : Int)
    (f : Except Unit ℚ) :
    (refresh_ev_soc s now f).1.evse = s.evse ∧
    (refresh_ev_soc s now f).1.evse_refresh_time = s.evse_refresh_time ∧
    (refresh_ev_soc s now f).1.last_charging_state_change =
      s.last_charging_state_change ∧
    (refresh_ev_soc s now f).1.max_soc_on_grid = s.max_soc_on_grid := by
  unfold refresh_ev_soc
  split
  · cases f <;> simp
  · simp

theorem refresh_ev_soc_error (s : HomeState) (now : Int) :
    refresh_ev_soc s now (Except.error ()) = (s, s.vehicle_soc) := by
  unfold refresh_ev_soc
  split <;> rfl

theorem wait_of_refresh (s : HomeState) (now t : Int) (e : Evse) :
    charger_protection_wait (refresh_charger_status s now none e) t =
      charger_protection_wait s t := by
  unfold charger_protection_wait
  rw [(refresh_fields s now e).1]

theorem refresh_no_refire (s : HomeState) (now : Int) (e e' : Evse) :
    refresh_charger_status (refresh_charger_status s now none e) now none e' =
      refresh_charger_status s now none e := by
  rw [refresh_none_eq s now e]
  by_cases h : api_refresh_interval < now - s.evse_refresh_time
  · rw [if_pos h, refresh_none_eq]
    simp [api_refresh_interval]
  · rw [if_neg h, refresh_none_eq, if_neg h]

theorem stop_charger_off (s : HomeState) (now : Int) (reset : Bool)
    (e : Evse) :
    (stop_charger s now reset e).state.evse.charger_on = false := by
  unfold stop_charger
  dsimp only
  split <;> split <;> simp_all

theorem stop_charger_reset (s : HomeState) (now : Int) (e : Evse) :
    (stop_charger s now true e).state.evse.charger_on = false ∧
    (stop_charger s now true e).ret = true := by
  unfold stop_charger
  dsimp only
  split <;> simp

theorem set_charger_soc_fields (s : HomeState) (now rate0 : Int) (e : Evse) :
    (set_charger s now rate0 e).state.vehicle_soc = s.vehicle_soc ∧
    (set_charger s now rate0 e).state.max_soc_on_grid = s.max_soc_on_grid := by
  have hr := refresh_fields s now e
  unfold set_charger
  dsimp only
  rw [refresh_some_eq]
  split
  · simp_all
  · split
    · simp_all
    · split <;> simp_all

theorem stop_charger_soc_fields (s : HomeState) (now : Int) (reset : Bool)
    (e : Evse) :
    (stop_charger s now reset e).state.vehicle_soc = s.vehicle_soc ∧
    (stop_charger s now reset e).state.max_soc_on_grid = s.max_soc_on_grid := by
  have hr := refresh_fields s now e
  unfold stop_charger
  dsimp only
  split <;> split <;> simp_all

theorem refresh_after_soc (s : HomeState) (now : Int) (e e' : Evse)
    (f : Except Unit ℚ) :
    refresh_charger_status
        (refresh_ev_soc (refresh_charger_status s now none e) now f).1 now
        none e' =
      (refresh_ev_soc (refresh_charger_status s now none e) now f).1 := by
  have h1 := refresh_ev_soc_fields (refresh_charger_status s now none e) now f
  rw [refresh_none_eq, h1.2.1]
  by_cases h : api_refresh_interval < now - s.evse_refresh_time
  · rw [refresh_none_eq, if_pos h]
    have h2 : ¬ api_refresh_interval < now -
        ({ s with evse := standby_fix e, evse_refresh_time := now } : HomeState).evse_refresh_time := by
      simp [api_refresh_interval]
    rw [if_neg h2]
  · rw [refresh_none_eq, if_neg h, if_neg h]

theorem stop_charger_noop (s : HomeState) (now : Int) (e : Evse)
    (hw : charger_protection_wait s now = 0)
    (hoff : (refresh_charger_status s now none e).evse.charger_on = false) :
    (stop_charger s now false e).cmds = [] ∧
    (stop_charger s now false e).state = refresh_charger_status s now none e := by
  unfold stop_charger
  dsimp only
  rw [wait_of_refresh, hw]
  simp [hoff]

theorem set_charger_last_cases (s : HomeState) (now rate0 : Int) (e : Evse) :
    (set_charger s now rate0 e).state.last_charging_state_change =
      s.last_charging_state_change ∨
    ((refresh_charger_status s now none e).evse.charger_on = false ∧
     charger_protection_wait s now = 0 ∧
     (set_charger s now rate0 e).state.last_charging_state_change = now) := by
  have hr := refresh_fields s now e
  unfold set_charger
  dsimp only
  split
  · exact Or.inl hr.1
  · split
    · exact Or.inl hr.1
    · by_cases hon : (refresh_charger_status s now none e).evse.charger_on = true
      · rw [if_pos hon, refresh_some_eq]
        exact Or.inl hr.1
      · rw [if_neg hon, refresh_some_eq]
        refine Or.inr ⟨by simpa using hon, ?_, rfl⟩
        rename_i h1 h2
        have hge : 0 ≤ charger_protection_wait s now := le_max_left 0 _
        have : ¬ (0 < charger_protection_wait s now) := fun hlt =>
          h1 ⟨by simpa using hon, hlt⟩
        omega

theorem stop_charger_last_cases (s : HomeState) (now : Int) (reset : Bool)
    (e : Evse) :
    (stop_charger s now reset e).state.last_charging_state_change =
      s.last_charging_state_change ∨
    (stop_charger s now reset e).state.last_charging_state_change =
      now + charger_protection_wait s now := by
  have hr := refresh_fields s now e
  unfold stop_charger
  dsimp only
  rw [wait_of_refresh]
  by_cases hw : 0 < charger_protection_wait s now
  · simp only [if_pos hw]
    split
    · exact Or.inr rfl
    · exact Or.inl hr.1
  · have hge : 0 ≤ charger_protection_wait s now := le_max_left 0 _
    have hz : charger_protection_wait s now = 0 := by omega
    simp only [if_neg hw]
    split
    · refine Or.inr ?_
      dsimp only
      omega
    · exact Or.inl hr.1

/-- C1. The claim asserts that no on→off, off→on, **or rate change** is
commanded within `min_interval` of the previous accepted change. The spacing
of on/off transitions (the updates of `last_charging_state_change`) holds,
but the rate-change part is false: `set_charger`'s protection guard
(`if not charger_on and wait > 0`, line 163) fires only while the charger is
off, so a rate change on a running charger is commanded at any time. Here,
60 s after the previous accepted change (elapsed < 300 s), the charger being
on at 10 A, `set_charger(20)` issues the actuator command for 20 A. -/
theorem C1_counterexample :
    (1000 : Int) - stHeldOn.last_charging_state_change < min_interval_seconds ∧
    stHeldOn.evse.charger_on = true ∧
    stHeldOn.evse.charging_rate = 10 ∧
    (set_charger stHeldOn 1000 20 evOn10).cmds = [Cmd.update true 20] ∧
    (set_charger stHeldOn 1000 20 evOn10).state.evse.charging_rate = 20 := by
  decide

/-- C1 (amended): any two updates of `last_charging_state_change` are at
least `min_interval` apart — `set_charger` accepts an off→on only when the
protection wait is zero, which (for monotone time) means at least 300 s have
elapsed, and `stop_charger` stamps the new change time at `now + wait`,
i.e. at least 300 s after the previous change; but a charging-rate change
while the charger is on is not protected. -/
theorem C1_transition_spacing (s : HomeState) (now rate0 : Int) (reset : Bool)
    (extGet : Evse) (hmono : s.last_charging_state_change ≤ now) :
    ((set_charger s now rate0 extGet).state.last_charging_state_change ≠
        s.last_charging_state_change →
      min_interval_seconds ≤ now - s.last_charging_state_change ∧
      (set_charger s now rate0 extGet).state.last_charging_state_change = now) ∧
    ((stop_charger s now reset extGet).state.last_charging_state_change ≠
        s.last_charging_state_change →
      min_interval_seconds ≤
        (stop_charger s now reset extGet).state.last_charging_state_change -
          s.last_charging_state_change) := by
  constructor
  · intro hne
    rcases set_charger_last_cases s now rate0 extGet with h | ⟨_, hw, hl⟩
    · exact absurd h hne
    · refine ⟨?_, hl⟩
      unfold charger_protection_wait at hw
      unfold min_interval_seconds at hw ⊢
      omega
  · intro hne
    rcases stop_charger_last_cases s now reset extGet with h | hl
    · exact absurd h hne
    · rw [hl]
      unfold charger_protection_wait min_interval_seconds
      omega

theorem C1_witness :
    stClear.last_charging_state_change ≤ (1000 : Int) ∧
    min_interval_seconds ≤ (1000 : Int) - stClear.last_charging_state_change ∧
    (set_charger stClear 1000 10 evOff).state.last_charging_state_change =
      1000 :=
  ⟨by decide,
   ((C1_transition_spacing stClear 1000 10 false evOff (by decide)).1
     (by decide)).1,
   ((C1_transition_spacing stClear 1000 10 false evOff (by decide)).1
     (by decide)).2⟩

/-- C2. False as stated: `charger_protection_wait` uses the Python
`timedelta.seconds` component — the elapsed time modulo one day — so an
elapsed time of 86410 s (one day and 10 s), far beyond the 300 s interval,
still reports a 290 s wait instead of zero. -/
theorem C2_counterexample :
    min_interval_seconds ≤
      (86410 : Int) -
        ({ stClear with last_charging_state_change := 0 } :
            HomeState).last_charging_state_change ∧
    charger_protection_wait { stClear with last_charging_state_change := 0 }
        86410 = 290 ∧
    (290 : Int) ≠ 0 := by
  decide

/-- C2 (amended): `charger_protection_wait` returns zero once the interval
has elapsed, provided the elapsed time is under one day (the code reads the
`seconds` component of the elapsed `timedelta`, i.e. elapsed mod 86400). -/
theorem C2_wait_zero (s : HomeState) (now : Int)
    (h1 : min_interval_seconds ≤ now - s.last_charging_state_change)
    (h2 : now - s.last_charging_state_change < 86400) :
    charger_protection_wait s now = 0 := by
  unfold charger_protection_wait
  unfold min_interval_seconds at h1 ⊢
  omega

theorem C2_witness :
    min_interval_seconds ≤ (1000 : Int) - stClear.last_charging_state_change ∧
    (1000 : Int) - stClear.last_charging_state_change < 86400 ∧
    charger_protection_wait stClear 1000 = 0 :=
  ⟨by decide, by decide, C2_wait_zero stClear 1000 (by decide) (by decide)⟩

/-- C9. On every exit path of `run` — the loops completing at sunset, or an
exception caught by the outer handler after any number of ticks — the
`finally` clause runs `stop_charger(True)` as the last action, after which
the cached charger on flag is false (and the stop reports success). -/
theorem C9_shutdown_forces_off (s : HomeState) (ticks : List TickIn)
    (interrupt : Option Nat) (now : Int) (extGet : Evse) :
    (run s ticks interrupt now extGet).state.evse.charger_on = false ∧
    (run s ticks interrupt now extGet).ret = true := by
  unfold run
  cases interrupt <;> exact stop_charger_reset _ now extGet


theorem solar_rate_2500 : solar_rate 2500 = 10 := by
  unfold solar_rate excessive_ratio
  rw [min_eq_left (by norm_num), max_eq_left (by norm_num), Int.floor_eq_iff]
  constructor <;> norm_num

theorem refresh_stClear : refresh_charger_status stClear 1000 none evOff = stClear := by
  rw [refresh_none_eq, if_neg (by decide)]

theorem solar_charge_scenario :
    solar_charge stClear 1000 evOff 3000 500 0 =
      ⟨(set_charger stClear 1000 10 evOff).state,
       (set_charger stClear 1000 10 evOff).state.evse.charger_on,
       (set_charger stClear 1000 10 evOff).cmds, some 10, false⟩ := by
  unfold solar_charge
  dsimp only
  rw [refresh_stClear]
  rw [if_neg (by decide), if_pos (by decide)]
  rw [show solar_excess stClear.evse 3000 500 0 = 2500 from by decide]
  rw [solar_rate_2500]

/-- C3. False as stated: the off-peak fallback condition (line 258) is
`not self.solar_charge() and self.powerwall.battery >= 0`. Tesla Powerwall
aggregates report battery power positive while the battery discharges, so
with the home battery discharging at 500 W (`battery = 500 > 0`) and the
solar decision leaving the charger off, the tick **does** fall back to grid
charging — contradicting "when the battery is discharging the tick never
falls back". (The code's own comment — "charge powerwall battery first then
charge the car from grid" — gates the fallback on the battery no longer
charging, not on it not discharging.) -/
theorem C3_counterexample :
    (0 : Int) < 500 ∧
    (offpeak_tick stClear 1000 evOff 0 0 500 (Except.error ())).solarRet =
      false ∧
    (offpeak_tick stClear 1000 evOff 0 0 500 (Except.error ())).gridInvoked =
      true := by
  decide

/-- C3 (amended): on an off-peak tick the grid-charge fallback runs iff the
solar decision leaves the charger off **and** the battery flow is
non-negative (the home battery is not charging, under the convention that
positive battery power = discharge); when the battery flow is negative (the
battery is charging) the tick never falls back to grid. -/
theorem C3_fallback_iff_battery_nonneg (s : HomeState) (now : Int)
    (extGet : Evse) (solar home battery : Int) (fetch : Except Unit ℚ) :
    ((offpeak_tick s now extGet solar home battery fetch).gridInvoked =
        true ↔
      (solar_charge s now extGet solar home battery).ret = false ∧
        0 ≤ battery) ∧
    (battery < 0 →
      (offpeak_tick s now extGet solar home battery fetch).gridInvoked =
        false ∧
      (offpeak_tick s now extGet solar home battery fetch).gridCmds = [] ∧
      (offpeak_tick s now extGet solar home battery fetch).state =
        (solar_charge s now extGet solar home battery).state) := by
  unfold offpeak_tick
  dsimp only
  by_cases h : (solar_charge s now extGet solar home battery).ret = false ∧
      0 ≤ battery
  · rw [if_pos h]
    exact ⟨⟨fun _ => h, fun _ => rfl⟩, fun hneg => absurd h.2 (by omega)⟩
  · rw [if_neg h]
    exact ⟨⟨fun hc => absurd hc (by simp), fun hh => absurd hh h⟩,
           fun hneg => ⟨rfl, rfl, rfl⟩⟩

theorem C3_witness :
    ((-300 : Int) < 0 ∧
      (offpeak_tick stClear 1000 evOff 0 0 (-300)
          (Except.error ())).gridInvoked = false) ∧
    ((solar_charge stClear 1000 evOff 0 0 500).ret = false ∧ (0 : Int) ≤ 500 ∧
      (offpeak_tick stClear 1000 evOff 0 0 500
          (Except.error ())).gridInvoked = true) :=
  ⟨⟨by decide,
    ((C3_fallback_iff_battery_nonneg stClear 1000 evOff 0 0 (-300)
        (Except.error ())).2 (by decide)).1⟩,
   ⟨by decide, by decide,
    (C3_fallback_iff_battery_nonneg stClear 1000 evOff 0 0 500
        (Except.error ())).1.mpr ⟨by decide, by decide⟩⟩⟩

/-- C4. The solar-mode budget and decision: `solar_excess` is
`solar - home - |battery|` plus the charger's own draw (`rate × 240` W when
on, 0 when off); whenever the car is connected and the excess exceeds the
1440 W threshold, `solar_charge` requests ON at
`int(clamp(excess * 0.98 / 240, 6, 40))`; and in the concrete scenario
(solar 3000 W, home 500 W, battery 0, charger off and connected) the excess
is 2500 W and the decision turns the charger on at 10 A. -/
theorem C4_solar_budget_and_scenario :
    (∀ (e : Evse) (solar home battery : Int),
      solar_excess e solar home battery =
        solar - home - |battery| +
          (if e.charger_on then e.charging_rate * 240 else 0)) ∧
    (∀ (s : HomeState) (now : Int) (extGet : Evse) (solar home battery : Int),
      is_car_connected (refresh_charger_status s now none extGet).evse =
          true →
      min_excessive_solar <
          solar_excess (refresh_charger_status s now none extGet).evse solar
            home battery →
      (solar_charge s now extGet solar home battery).requested =
        some
          ⌊max
              (min
                ((solar_excess (refresh_charger_status s now none extGet).evse
                      solar home battery : ℚ) * (49 / 50) / 240) 40) 6⌋) ∧
    solar_excess evOff 3000 500 0 = 2500 ∧
    (solar_charge stClear 1000 evOff 3000 500 0).requested = some 10 ∧
    (solar_charge stClear 1000 evOff 3000 500 0).cmds =
      [Cmd.update true 10] ∧
    (solar_charge stClear 1000 evOff 3000 500 0).state.evse.charger_on =
      true := by
  refine ⟨?h1, ?h2, by decide, ?h3, ?h4, ?h5⟩
  case h1 =>
    intro e solar home battery
    unfold solar_excess available_solar
    by_cases h : e.charger_on <;> simp [h]
  case h2 =>
    intro s now extGet solar home battery hc hex
    unfold solar_charge
    dsimp only
    rw [if_neg (by simp [hc]), if_pos hex]
    rfl
  case h3 => rw [solar_charge_scenario]
  case h4 => rw [solar_charge_scenario]; decide
  case h5 => rw [solar_charge_scenario]; decide

theorem C4_witness :
    is_car_connected (refresh_charger_status stClear 1000 none evOff).evse =
      true ∧
    min_excessive_solar <
      solar_excess (refresh_charger_status stClear 1000 none evOff).evse 3000
        500 0 ∧
    (solar_charge stClear 1000 evOff 3000 500 0).requested =
      some
        ⌊max
            (min
              ((solar_excess (refresh_charger_status stClear 1000 none
                    evOff).evse 3000 500 0 : ℚ) * (49 / 50) / 240) 40) 6⌋ :=
  ⟨by decide, by decide,
   C4_solar_budget_and_scenario.2.1 stClear 1000 evOff 3000 500 0 (by decide)
     (by decide)⟩

/-- C5. When the car is connected and the computed excess is below the
1440 W minimum threshold, `solar_charge` takes the stop branch: it never
invokes `set_charger` (no ON/rate request) and the tick ends with the cached
charger off. -/
theorem C5_low_excess_never_starts (s : HomeState) (now : Int) (extGet : Evse)
    (solar home battery : Int)
    (hc : is_car_connected (refresh_charger_status s now none extGet).evse =
      true)
    (hex : solar_excess (refresh_charger_status s now none extGet).evse solar
        home battery < min_excessive_solar) :
    (solar_charge s now extGet solar home battery).requested = none ∧
    (solar_charge s now extGet solar home battery).stopInvoked = true ∧
    (solar_charge s now extGet solar home battery).state.evse.charger_on =
      false := by
  unfold solar_charge
  dsimp only
  rw [if_neg (by simp [hc]), if_neg (by omega)]
  exact ⟨rfl, rfl, stop_charger_off _ now false extGet⟩

theorem C5_witness :
    is_car_connected (refresh_charger_status stClear 1000 none evOff).evse =
      true ∧
    solar_excess (refresh_charger_status stClear 1000 none evOff).evse 0 0 500
      < min_excessive_solar ∧
    (solar_charge stClear 1000 evOff 0 0 500).requested = none ∧
    (solar_charge stClear 1000 evOff 0 0 500).state.evse.charger_on =
      false := by
  refine ⟨by decide, by decide, ?_, ?_⟩
  · exact (C5_low_excess_never_starts stClear 1000 evOff 0 0 500 (by decide)
      (by decide)).1
  · exact (C5_low_excess_never_starts stClear 1000 evOff 0 0 500 (by decide)
      (by decide)).2.2

/-- C6. False as stated: the standby correction (lines 214-218) runs only on
the TTL-driven external read path of `refresh_charger_status`. A status
object passed in directly — as done with the status returned immediately
after a command (`refresh_charger_status(self.emporia.update_charger(...))`)
— is stored verbatim: here a `Standby`, connected, on charger stays cached
with `charger_on = true` and `charging_rate = 10`. -/
theorem C6_counterexample :
    evStandby.status = "Standby" ∧
    is_car_connected evStandby = true ∧
    evStandby.charger_on = true ∧
    (refresh_charger_status stClear 1000 (some evStandby) evOff).evse.charger_on
      = true ∧
    (refresh_charger_status stClear 1000
        (some evStandby) evOff).evse.charging_rate = 10 := by
  decide

/-- C6 (amended): on the TTL-driven external read path, a refreshed status
reporting `Standby` while connected with the on flag set is corrected to
`charger_on = false`, `charging_rate = 0`; the correction does not apply to
a status object passed in after a command. -/
theorem C6_standby_corrected_on_read (s : HomeState) (now : Int) (e : Evse)
    (httl : api_refresh_interval < now - s.evse_refresh_time)
    (hc : is_car_connected e = true) (hs : e.status = "Standby")
    (hon : e.charger_on = true) :
    (refresh_charger_status s now none e).evse.charger_on = false ∧
    (refresh_charger_status s now none e).evse.charging_rate = 0 := by
  rw [refresh_none_eq, if_pos httl]
  dsimp only
  unfold standby_fix
  rw [if_pos (by simp [hc, hs, hon])]
  exact ⟨rfl, rfl⟩

theorem C6_witness :
    api_refresh_interval <
      (1000 : Int) -
        ({ stClear with evse_refresh_time := 0 } : HomeState).evse_refresh_time ∧
    is_car_connected evStandby = true ∧
    evStandby.status = "Standby" ∧
    evStandby.charger_on = true ∧
    (refresh_charger_status { stClear with evse_refresh_time := 0 } 1000 none
        evStandby).evse.charger_on = false ∧
    (refresh_charger_status { stClear with evse_refresh_time := 0 } 1000 none
        evStandby).evse.charging_rate = 0 := by
  refine ⟨by decide, by decide, by decide, by decide, ?_, ?_⟩
  · exact (C6_standby_corrected_on_read { stClear with evse_refresh_time := 0 }
      1000 evStandby (by decide) (by decide) (by decide) (by decide)).1
  · exact (C6_standby_corrected_on_read { stClear with evse_refresh_time := 0 }
      1000 evStandby (by decide) (by decide) (by decide) (by decide)).2

/-- C7. The SOC-threshold behaviour holds, but the parenthetical "a no-op
when the charger is already off" is false: with the SOC at or above the
ceiling and the charger already off, a pending protection wait makes
`stop_charger` issue a lower-to-6 A actuator command (line 191) before
sleeping — here the tick sends `update(off, 6)` rather than nothing. -/
theorem C7_counterexample :
    stHeldOff.evse.charger_on = false ∧
    stHeldOff.max_soc_on_grid ≤ stHeldOff.vehicle_soc ∧
    (grid_charge stHeldOff 1000 evOff (Except.error ())).requested = none ∧
    (grid_charge stHeldOff 1000 evOff (Except.error ())).cmds =
      [Cmd.update false 6] := by
  decide

/-- C7 (amended): in grid mode with the car connected, if the refreshed SOC
is below the ceiling the decision requests ON at 40 A; otherwise it invokes
`stop_charger`, never `set_charger`, leaving the cached charger off — and
this is a no-op (no actuator command) when the charger is already off
**and** no protection wait is pending. -/
theorem C7_grid_decision (s : HomeState) (now : Int) (extGet : Evse)
    (fetch : Except Unit ℚ)
    (hc : is_car_connected (refresh_charger_status s now none extGet).evse =
      true) :
    ((refresh_ev_soc (refresh_charger_status s now none extGet) now fetch).2 <
        (refresh_ev_soc (refresh_charger_status s now none extGet) now
            fetch).1.max_soc_on_grid →
      (grid_charge s now extGet fetch).requested = some 40) ∧
    ((refresh_ev_soc (refresh_charger_status s now none extGet) now
          fetch).1.max_soc_on_grid ≤
        (refresh_ev_soc (refresh_charger_status s now none extGet) now
            fetch).2 →
      (grid_charge s now extGet fetch).requested = none ∧
      (grid_charge s now extGet fetch).stopInvoked = true ∧
      (grid_charge s now extGet fetch).state.evse.charger_on = false ∧
      ((refresh_ev_soc (refresh_charger_status s now none extGet) now
            fetch).1.evse.charger_on = false →
        charger_protection_wait s now = 0 →
        (grid_charge s now extGet fetch).cmds = [])) := by
  unfold grid_charge
  dsimp only
  rw [if_neg (by simp [hc])]
  constructor
  · intro hlt
    rw [if_pos hlt]
  · intro hge
    rw [if_neg (not_lt.mpr hge)]
    refine ⟨rfl, rfl, stop_charger_off _ now false extGet, ?_⟩
    intro hoffp hw
    have hre := refresh_after_soc s now extGet extGet fetch
    have hl : (refresh_ev_soc (refresh_charger_status s now none extGet) now
        fetch).1.last_charging_state_change = s.last_charging_state_change := by
      rw [(refresh_ev_soc_fields _ _ _).2.2.1, (refresh_fields _ _ _).1]
    have hw2 : charger_protection_wait
        (refresh_ev_soc (refresh_charger_status s now none extGet) now
          fetch).1 now = 0 := by
      unfold charger_protection_wait at hw ⊢
      rw [hl]
      exact hw
    exact (stop_charger_noop _ now extGet hw2 (by rw [hre]; exact hoffp)).1

theorem C7_witness :
    (is_car_connected (refresh_charger_status stClear 1000 none evOff).evse =
        true ∧
      (refresh_ev_soc (refresh_charger_status stClear 1000 none evOff) 1000
          (Except.error ())).2 <
        (refresh_ev_soc (refresh_charger_status stClear 1000 none evOff) 1000
            (Except.error ())).1.max_soc_on_grid ∧
      (grid_charge stClear 1000 evOff (Except.error ())).requested =
        some 40) ∧
    (({ stClear with vehicle_soc := 70 } : HomeState).max_soc_on_grid ≤
        (refresh_ev_soc
            (refresh_charger_status { stClear with vehicle_soc := 70 } 1000
              none evOff) 1000 (Except.error ())).2 ∧
      charger_protection_wait { stClear with vehicle_soc := 70 } 1000 = 0 ∧
      (grid_charge { stClear with vehicle_soc := 70 } 1000 evOff
          (Except.error ())).cmds = []) :=
  ⟨⟨by decide, by decide,
    (C7_grid_decision stClear 1000 evOff (Except.error ()) (by decide)).1
      (by decide)⟩,
   ⟨by decide, by decide,
    (((C7_grid_decision { stClear with vehicle_soc := 70 } 1000 evOff
          (Except.error ()) (by decide)).2 (by decide)).2.2.2 (by decide)
      (by decide))⟩⟩

/-- C8. False as stated for the SOC half: `refresh_ev_soc` wraps the vendor
fetch in `try`/`except` (lines 222-236) which catches and logs the failure —
the stale cache is retained and returned, but no error propagates to the
caller: the call returns normally with the stale value. -/
theorem C8_counterexample :
    ({ stClear with vehicle_soc_update_time := 0 } :
        HomeState).soc_refresh_interval <
      (1000 : Int) - ({ stClear with vehicle_soc_update_time := 0 } :
          HomeState).vehicle_soc_update_time ∧
    refresh_ev_soc { stClear with vehicle_soc_update_time := 0 } 1000
        (Except.error ()) =
      ({ stClear with vehicle_soc_update_time := 0 }, 50) := by
  exact ⟨by decide, refresh_ev_soc_error _ 1000⟩

/-- C8 (amended): on a failing external read, the charger-status refresh
propagates the error with the cached state untouched (nothing is assigned
before the raise), while the SOC refresh catches the error, leaves the
cached value and its timestamp unchanged, and returns the stale value
normally. -/
theorem C8_refresh_failure (s : HomeState) (now : Int) :
    (api_refresh_interval < now - s.evse_refresh_time →
      refresh_charger_status_try s now (Except.error ()) =
        Except.error ()) ∧
    ((refresh_ev_soc s now (Except.error ())).1.vehicle_soc =
        s.vehicle_soc ∧
      (refresh_ev_soc s now (Except.error ())).1.vehicle_soc_update_time =
        s.vehicle_soc_update_time ∧
      (refresh_ev_soc s now (Except.error ())).2 = s.vehicle_soc) := by
  constructor
  · intro h
    unfold refresh_charger_status_try
    rw [if_pos h]
  · rw [refresh_ev_soc_error]
    exact ⟨rfl, rfl, rfl⟩

theorem C8_witness :
    api_refresh_interval <
      (1000 : Int) -
        ({ stClear with evse_refresh_time := 0 } : HomeState).evse_refresh_time ∧
    refresh_charger_status_try { stClear with evse_refresh_time := 0 } 1000
        (Except.error ()) = Except.error () :=
  ⟨by decide,
   (C8_refresh_failure { stClear with evse_refresh_time := 0 } 1000).1
     (by decide)⟩

theorem grid_error_props (s : HomeState) (t : Int) (e : Evse)
    (hs : s.vehicle_soc = s.max_soc_on_grid) :
    (grid_charge s t e (Except.error ())).state.vehicle_soc =
      s.vehicle_soc ∧
    (grid_charge s t e (Except.error ())).state.max_soc_on_grid =
      s.max_soc_on_grid ∧
    (grid_charge s t e (Except.error ())).requested = none := by
  have hr := refresh_fields s t e
  unfold grid_charge
  dsimp only
  rw [refresh_ev_soc_error]
  dsimp only
  split
  · exact ⟨hr.2.1, hr.2.2.2.1, rfl⟩
  · rw [if_neg (by rw [hr.2.1, hr.2.2.2.1, hs]; exact lt_irrefl _)]
    have hst := stop_charger_soc_fields (refresh_charger_status s t none e) t
      false e
    exact ⟨by rw [hst.1, hr.2.1], by rw [hst.2, hr.2.2.2.1], rfl⟩

/-- C10. While no vehicle-SOC fetch has ever succeeded, the cached SOC stays
at its initial value `max_soc_on_grid`, so `refresh_ev_soc() <
max_soc_on_grid` is false on every grid tick: across any run of grid ticks
whose fetches all fail, `set_charger` is never invoked (no ON command) and
the SOC invariant is preserved — grid charging fails safe until the first
successful SOC read. -/
theorem C10_grid_fail_safe (ticks : List (Int × Evse)) (s : HomeState)
    (hs : s.vehicle_soc = s.max_soc_on_grid) :
    (grid_run s ticks).2 = false ∧
    (grid_run s ticks).1.vehicle_soc = (grid_run s ticks).1.max_soc_on_grid := by
  induction ticks generalizing s with
  | nil => exact ⟨rfl, hs⟩
  | cons hd tl ih =>
    obtain ⟨t, e⟩ := hd
    have hp := grid_error_props s t e hs
    have h2 := ih (grid_charge s t e (Except.error ())).state
      (by rw [hp.1, hp.2.1]; exact hs)
    unfold grid_run
    dsimp only
    refine ⟨?_, h2.2⟩
    rw [hp.2.2]
    simpa using h2.1

theorem C10_witness :
    (initial_state evOff 0 60 300 100 200 300).vehicle_soc =
      (initial_state evOff 0 60 300 100 200 300).max_soc_on_grid ∧
    (grid_run (initial_state evOff 0 60 300 100 200 300)
        [(15, evOff), (30, evOff)]).2 = false :=
  ⟨rfl,
   (C10_grid_fail_safe [(15, evOff), (30, evOff)]
     (initial_state evOff 0 60 300 100 200 300) rfl).1⟩

end SolarHome
